import Mathlib

/-!
Verification of the Research Explorer repository
(`research_explorer_project/crew.py` and `research_explorer_project/app.py`)
against its natural-language specification.

The two Python modules are shallowly embedded below:

* `crew.py`: the module-level `llm` configuration, the five `Agent`
  records built in `ResearchExplorerCrew.__init__` (here
  `ResearchExplorerCrew.init`), the five `Task` records built in
  `ResearchExplorerCrew.build_crew` (the Python local variables
  `topic_task` … `ppt_content_task` become top-level functions of the
  instance and the topic), and `ResearchExplorerCrew.run`.
  `textwrap.dedent`, which `crew.py` applies to every description and
  backstory literal after f-string interpolation, is embedded exactly
  (whitespace-only lines blanked, longest common leading `' '`/`'\t'`
  margin of the remaining lines stripped).
* `app.py`: the single `index` route. Flask's `request.form.get`,
  `flash`/`redirect` and `render_template` are external collaborators;
  the `Response` type records exactly the values `app.py` hands them.
  The external crewai engine (`Crew.kickoff`) is a parameter, so
  deterministic stubs can be plugged in.

Python's `str.strip()` is modelled on the six ASCII whitespace
characters (space, tab, newline, carriage return, vertical tab, form
feed); Python additionally strips rarer Unicode whitespace, which no
claim exercises.
-/

set_option maxRecDepth 16384

namespace ResearchExplorer

/-! ## Python string primitives -/

/-- Python `str.strip()` whitespace test, restricted to ASCII whitespace. -/
def pyIsSpace (c : Char) : Bool :=
  c = ' ' || c = '\t' || c = '\n' || c = '\r' || c = '\x0b' || c = '\x0c'

/-- Python `str.strip()` on a character list: drop whitespace from both ends. -/
def pyStripL (l : List Char) : List Char :=
  ((l.dropWhile pyIsSpace).reverse.dropWhile pyIsSpace).reverse

/-- Python `str.strip()`. -/
def pyStrip (s : String) : String :=
  ⟨pyStripL s.data⟩

/-- The whitespace characters `textwrap.dedent` considers (`[ \t]`). -/
def isTabOrSpace (c : Char) : Bool :=
  c = ' ' || c = '\t'

/-- Python `text.split('\n')`: the lines of a character list.
`[]` splits to `[[]]`, and a trailing newline yields a trailing `[]`. -/
def splitOnNl : List Char → List (List Char)
  | [] => [[]]
  | c :: rest =>
    if c = '\n' then [] :: splitOnNl rest
    else
      match splitOnNl rest with
      | [] => [[c]]
      | l :: ls => (c :: l) :: ls

/-- Inverse of `splitOnNl`: join lines with `'\n'`. -/
def joinNl : List (List Char) → List Char
  | [] => []
  | [l] => l
  | l :: ls => l ++ '\n' :: joinNl ls

/-- `textwrap.dedent` step 1 (`_whitespace_only_re.sub('', text)`): a line
consisting solely of spaces and tabs is emptied. -/
def blankWs (l : List Char) : List Char :=
  if l.all isTabOrSpace then [] else l

/-- Leading `[ \t]*` run of a line (`_leading_whitespace_re`). -/
def lineIndent (l : List Char) : List Char :=
  l.takeWhile isTabOrSpace

/-- Longest common prefix of two character lists. -/
def commonPrefix : List Char → List Char → List Char
  | a :: as, b :: bs => if a = b then a :: commonPrefix as bs else []
  | _, _ => []

/-- `textwrap.dedent`'s margin: the longest common prefix of the indents of
the lines that carry non-whitespace content; no such line means no margin. -/
def marginOf (indents : List (List Char)) : List Char :=
  match indents with
  | [] => []
  | i :: is => is.foldl commonPrefix i

/-- `textwrap.dedent` step 3 (`re.sub(r'(?m)^' + margin, '', text)`): the
margin is removed from each line that starts with it. -/
def stripMargin (margin : List Char) (l : List Char) : List Char :=
  if margin.isPrefixOf l then l.drop margin.length else l

/-- `textwrap.dedent` on a character list. -/
def dedentL (text : List Char) : List Char :=
  let lines := (splitOnNl text).map blankWs
  let indents := (lines.filter (fun l => !l.isEmpty)).map lineIndent
  let margin := marginOf indents
  joinNl (lines.map (stripMargin margin))

/-- `textwrap.dedent`, as `crew.py` imports and applies it. -/
def dedent (text : String) : String :=
  ⟨dedentL text.data⟩

/-! ## Data model (`crew.py`) -/

/-- The shared model configuration built at module level in `crew.py`
(`LLM(model=..., temperature=0.4, use_native=False)`); the float
temperature is modelled as a rational. -/
structure LLM where
  model : String
  temperature : ℚ
  use_native : Bool
deriving DecidableEq

/-- crew.py line 12: the one shared `llm` value. -/
def llm : LLM :=
  { model := "gemini/gemini-2.0-flash", temperature := 0.4, use_native := false }

/-- A crewai `Agent` record as `crew.py` constructs one. -/
structure Agent where
  role : String
  goal : String
  backstory : String
  llm : LLM
  verbose : Bool
  allow_delegation : Bool
deriving DecidableEq

/-- A crewai `Task` record as `crew.py` constructs one: a description, an
expected-output contract, an assigned agent, and the list of upstream
tasks passed as `context` (absent `context` is the empty list). -/
inductive Task : Type where
  | mk (description : String) (expected_output : String) (agent : Agent)
      (context : List Task) : Task

/-- Description field of a task. -/
def Task.description : Task → String
  | .mk d _ _ _ => d

/-- Expected-output field of a task. -/
def Task.expected_output : Task → String
  | .mk _ e _ _ => e

/-- Agent field of a task. -/
def Task.agent : Task → Agent
  | .mk _ _ a _ => a

/-- Context field of a task: the upstream tasks whose outputs are fed in. -/
def Task.context : Task → List Task
  | .mk _ _ _ c => c

/-- A crewai `Crew` as `crew.py` constructs one: just its ordered task list. -/
structure Crew where
  tasks : List Task

/-- The dict `{"full_markdown": ...}` that `ResearchExplorerCrew.run`
returns (the spec's `ReportResult`). -/
structure ReportResult where
  full_markdown : String
deriving DecidableEq

/-- The five agents a `ResearchExplorerCrew()` instance holds. -/
structure ResearchExplorerCrew where
  topic_decomposer : Agent
  info_collector : Agent
  report_writer : Agent
  presentation_agent : Agent
  ppt_content_agent : Agent

/-- `ResearchExplorerCrew.__init__`: the five agent records, with the
backstory literals run through `dedent` exactly as in the source. -/
def ResearchExplorerCrew.init : ResearchExplorerCrew where
  topic_decomposer :=
    { role := "Topic Decomposer"
      goal := "Break a broad research topic into 4–6 meaningful subtopics or questions that a student should explore."
      backstory := dedent "\n                You are an academic mentor who helps students break down complex\n                research topics into smaller, understandable parts.\n                "
      llm := llm, verbose := true, allow_delegation := false }
  info_collector :=
    { role := "Information Collector"
      goal := "For each subtopic, gather clear explanations, key methods, pros/cons."
      backstory := dedent "\n                You are a research assistant for a student and summarize research concepts.\n                "
      llm := llm, verbose := true, allow_delegation := false }
  report_writer :=
    { role := "Report Writer"
      goal := "Combine all collected information into a mini research report."
      backstory := dedent "\n                You write exam-ready mini project reports for B.Tech students.\n                "
      llm := llm, verbose := true, allow_delegation := false }
  presentation_agent :=
    { role := "Presentation Designer"
      goal := "Convert the written report into slide-wise bullet points for a short technical presentation."
      backstory := dedent "\n                You create clean and clear technical PPT outlines.\n                "
      llm := llm, verbose := true, allow_delegation := false }
  ppt_content_agent :=
    { role := "PPT Content Writer"
      goal := "Expand the PPT outline into full slide content for a presentation session."
      backstory := dedent "\n                You create complete slide text based on a PPT outline — including\n                slide headings, explanations, bullet points, examples, and notes.\n                "
      llm := llm, verbose := true, allow_delegation := false }

/-! ## Task chain builder (`ResearchExplorerCrew.build_crew`) -/

/-- crew.py line 110: `extra_note = instructions.strip() or "No extra
instructions."` (Python `or` falls through on the empty string). -/
def extra_note (instructions : String) : String :=
  let s := pyStrip instructions
  if s = "" then "No extra instructions." else s

/-- Task 1 of `build_crew` (topic decomposition); the f-string embeds the
raw topic, then `dedent` is applied. -/
def topic_task (self : ResearchExplorerCrew) (topic : String) : Task :=
  Task.mk
    (dedent ("\n                Break the topic \"" ++ topic ++ "\" into 4–6 subtopics with explanations.\n\n                # Topic Decomposition\n                "))
    "A list of 4-6 subtopics with a short (1-2 sentence) explanation for each, in markdown."
    self.topic_decomposer
    []

/-- Task 2 of `build_crew` (info collection); its description is a plain
(non-f-string) literal, context is `[topic_task]`. -/
def info_task (self : ResearchExplorerCrew) (topic : String) : Task :=
  Task.mk
    (dedent "\n                Using 'Topic Decomposition', provide definitions, methods, pros/cons.\n                # Collected Information\n                ")
    "For each subtopic, provide a definition, key methods, and pros/cons in structured markdown (subheadings)."
    self.info_collector
    [topic_task self topic]

/-- Task 3 of `build_crew` (report writing); the f-string embeds the raw
topic, context is `[topic_task, info_task]`. -/
def report_task (self : ResearchExplorerCrew) (topic : String) : Task :=
  Task.mk
    (dedent ("\n                Write a complete mini-report for the topic: \"" ++ topic ++ "\".\n                "))
    "A cohesive mini-report in markdown: introduction, sections for each subtopic, methods, pros/cons, conclusion, and references."
    self.report_writer
    [topic_task self topic, info_task self topic]

/-- Task 4 of `build_crew` (PPT outline); a plain literal (note the
trailing space after "outline" in the source), context is `[report_task]`. -/
def ppt_outline_task (self : ResearchExplorerCrew) (topic : String) : Task :=
  Task.mk
    (dedent "\n                Convert the full mini-report into a slide-wise outline \n                (8–10 slides) with titles and bullet points.\n\n                Format:\n                # Presentation Outline\n                ## Slide 1: ...\n                - Bullet 1\n                - Bullet 2\n                ")
    "An 8-10 slide outline in markdown with slide titles and 3-5 bullet points per slide."
    self.presentation_agent
    [report_task self topic]

/-- Task 5 of `build_crew` (full PPT content); a plain literal, context is
`[ppt_outline_task, report_task]`. -/
def ppt_content_task (self : ResearchExplorerCrew) (topic : String) : Task :=
  Task.mk
    (dedent "\n                Using the 'Presentation Outline', expand each slide into complete content.\n\n                Format:\n                # Full PPT Content\n\n                ## Slide 1: <Title>\n                - Full sentences explaining the slide\n                - Bullet points with meaningful descriptions\n                - Notes for presenter (if needed)\n\n                ## Slide 2: <Title>\n                - ...\n\n                Ensure content is clear, student-friendly, and presentation-ready.\n                ")
    "Full slide content for each slide: title, paragraph explanation, bullet details, and optional presenter notes in markdown."
    self.ppt_content_agent
    [ppt_outline_task self topic, report_task self topic]

/-- `ResearchExplorerCrew.build_crew`: computes `extra_note` (line 110,
never used afterwards — mirrored here by an unused let) and returns the
`Crew` over the five tasks in source order. -/
def ResearchExplorerCrew.build_crew (self : ResearchExplorerCrew) (topic : String)
    (instructions : String := "") : Crew :=
  let _extra_note := extra_note instructions
  Crew.mk [topic_task self topic, info_task self topic, report_task self topic,
    ppt_outline_task self topic, ppt_content_task self topic]

/-- `ResearchExplorerCrew.run`: builds the crew, hands it to the external
engine's `kickoff` (a parameter here: crewai is an external collaborator),
and wraps the returned text as `{"full_markdown": str(result)}`. -/
def ResearchExplorerCrew.run (self : ResearchExplorerCrew) (kickoff : Crew → String)
    (topic : String) (instructions : String := "") : ReportResult :=
  let crew := self.build_crew topic instructions
  let result_markdown := kickoff crew
  { full_markdown := result_markdown }

/-- Modelled from the spec: the external agent-execution engine
(`crewai.Crew.kickoff`, not code of this repository) "produces a terminal
textual result for the last task when run to completion". A deterministic
stub engine assigns every task a fixed output string and `kickoff`
returns the final task's output. -/
def stubKickoff (outputs : Task → String) (crew : Crew) : String :=
  match crew.tasks.getLast? with
  | some t => outputs t
  | none => ""

/-! ## Web request handler (`app.py`) -/

/-- HTTP method of a request to the `/` route. -/
inductive HttpMethod : Type where
  | GET
  | POST
deriving DecidableEq

/-- The two form fields `app.py` reads; `none` models an absent field
(Flask's `request.form.get(key, "")` then yields `""`). -/
structure FormData where
  topic : Option String
  instructions : Option String
deriving DecidableEq

/-- What the `index` route hands back to Flask. `renderIndex` is
`render_template("index.html")`; `redirectIndex` is the
`flash(message, category)` plus `redirect(url_for("index"))` pair;
`renderReport` carries the exact values passed to
`render_template("report.html", topic=..., instructions=..., result=...)`.
Modelled from the spec for the templates themselves (they are not under
`src/`): the result page shows these values verbatim and unescaped. -/
inductive Response : Type where
  | renderIndex : Response
  | redirectIndex (flashMessage : String) (flashCategory : String) : Response
  | renderReport (topic : String) (instructions : String) (result : ReportResult) : Response
deriving DecidableEq

/-- `app.py`'s `index` route. The external engine (`kickoff`) is a
parameter. The second component is the invocation log of
`ResearchExplorerCrew.run`: the source has exactly one call site, in the
non-empty-topic branch, and the log records the `(topic, instructions)`
arguments of each call made. -/
def index (kickoff : Crew → String) (method : HttpMethod) (form : FormData) :
    Response × List (String × String) :=
  match method with
  | .POST =>
    let topic := pyStrip (form.topic.getD "")
    let extra_instructions := pyStrip (form.instructions.getD "")
    if topic = "" then
      (Response.redirectIndex "Please enter a research topic." "danger", [])
    else
      let crew := ResearchExplorerCrew.init
      let result := crew.run kickoff topic extra_instructions
      (Response.renderReport topic extra_instructions result, [(topic, extra_instructions)])
  | .GET => (Response.renderIndex, [])

/-! ## Helper lemmas about the embedded string primitives -/

/-- Splitting never yields an empty list of lines. -/
theorem splitOnNl_ne_nil (l : List Char) : splitOnNl l ≠ [] := by
  induction l with
  | nil => simp [splitOnNl]
  | cons c rest ih =>
    simp only [splitOnNl]
    split
    · simp
    · cases h : splitOnNl rest with
      | nil => exact absurd h ih
      | cons a as => simp

/-- Splitting a list that starts with a newline. -/
theorem splitOnNl_nl_cons (w : List Char) : splitOnNl ('\n' :: w) = [] :: splitOnNl w := by
  simp [splitOnNl]

/-- A newline-free prefix lands entirely in the first line of the split. -/
theorem splitOnNl_append_of_no_nl (xs ys : List Char) (h : '\n' ∉ xs) :
    splitOnNl (xs ++ ys) = (splitOnNl ys).modifyHead (xs ++ ·) := by
  induction xs with
  | nil =>
    simp only [List.nil_append]
    cases splitOnNl ys <;> simp [List.modifyHead]
  | cons c rest ih =>
    have hc : ¬ c = '\n' := by
      intro hc; exact h (hc ▸ List.mem_cons_self c rest)
    have hrest : '\n' ∉ rest := fun hm => h (List.mem_cons_of_mem c hm)
    have ihr := ih hrest
    rw [List.cons_append]
    simp only [splitOnNl, if_neg hc]
    rw [ihr]
    cases h' : splitOnNl ys with
    | nil => exact absurd h' (splitOnNl_ne_nil ys)
    | cons a as => simp [List.modifyHead]

/-- `takeWhile` ignores everything after the first failing element. -/
theorem takeWhile_append_of_any (p : Char → Bool) (xs ys : List Char)
    (h : xs.any (fun x => !p x) = true) :
    (xs ++ ys).takeWhile p = xs.takeWhile p := by
  induction xs with
  | nil => simp at h
  | cons c rest ih =>
    by_cases hc : p c
    · simp only [List.any_cons, hc, Bool.not_true, Bool.false_or] at h
      simp [List.cons_append, List.takeWhile_cons, hc, ih h]
    · simp [List.cons_append, List.takeWhile_cons, hc]

/-- Appending string data distributes over `String.data`. -/
theorem string_data_append (a b : String) : (a ++ b).data = a.data ++ b.data := rfl

/-- The dedent of the first task's description template, for a newline-free
topic: the sixteen-space margin is removed from both content lines and the
topic passes through untouched. -/
theorem dedentL_topic_template (t : List Char) (ht : '\n' ∉ t) :
    dedentL ("\n                Break the topic \"".data ++
        (t ++ "\" into 4–6 subtopics with explanations.\n\n                # Topic Decomposition\n                ".data)) =
      '\n' :: ("Break the topic \"".data ++
        (t ++ "\" into 4–6 subtopics with explanations.\n\n# Topic Decomposition\n".data)) := by
  have hl1 : '\n' ∉ ("                Break the topic \"" : String).data := by decide
  have hsplit2 : splitOnNl ("\" into 4–6 subtopics with explanations.\n\n                # Topic Decomposition\n                " : String).data =
      ["\" into 4–6 subtopics with explanations.".data, [],
        "                # Topic Decomposition".data, "                ".data] := by decide
  have e0 : ("\n                Break the topic \"" : String).data ++
        (t ++ ("\" into 4–6 subtopics with explanations.\n\n                # Topic Decomposition\n                " : String).data) =
      '\n' :: (("                Break the topic \"" : String).data ++
        (t ++ ("\" into 4–6 subtopics with explanations.\n\n                # Topic Decomposition\n                " : String).data)) := rfl
  have hsplit : splitOnNl (("\n                Break the topic \"" : String).data ++
        (t ++ ("\" into 4–6 subtopics with explanations.\n\n                # Topic Decomposition\n                " : String).data)) =
      [[], "                Break the topic \"".data ++
          (t ++ "\" into 4–6 subtopics with explanations.".data), [],
        "                # Topic Decomposition".data, "                ".data] := by
    rw [e0, splitOnNl_nl_cons,
      splitOnNl_append_of_no_nl _ _ hl1,
      splitOnNl_append_of_no_nl _ _ ht, hsplit2]
    simp [List.modifyHead]
  -- the blanked lines
  have hallX : ("                Break the topic \"".data ++
      (t ++ "\" into 4–6 subtopics with explanations.".data)).all isTabOrSpace = false := by
    rw [List.all_append,
      show ("                Break the topic \"" : String).data.all isTabOrSpace = false from by decide]
    rfl
  have hblankX : blankWs ("                Break the topic \"".data ++
      (t ++ "\" into 4–6 subtopics with explanations.".data)) =
      "                Break the topic \"".data ++
      (t ++ "\" into 4–6 subtopics with explanations.".data) := by
    unfold blankWs
    rw [hallX]
    rfl
  -- the indents
  have hindX : lineIndent ("                Break the topic \"".data ++
      (t ++ "\" into 4–6 subtopics with explanations.".data)) =
      ("                " : String).data := by
    have hany : ("                Break the topic \"" : String).data.any (fun x => !isTabOrSpace x) = true := by decide
    rw [lineIndent, takeWhile_append_of_any _ _ _ hany]
    decide
  -- margin removal on the symbolic line
  have hstripX : stripMargin ("                " : String).data
      ("                Break the topic \"".data ++
        (t ++ "\" into 4–6 subtopics with explanations.".data)) =
      "Break the topic \"".data ++ (t ++ "\" into 4–6 subtopics with explanations.".data) := by
    have hdecomp : ("                Break the topic \"" : String).data ++
        (t ++ ("\" into 4–6 subtopics with explanations." : String).data) =
        ("                " : String).data ++ ("Break the topic \"".data ++
          (t ++ "\" into 4–6 subtopics with explanations.".data)) := by
      rw [← List.append_assoc]
      rfl
    rw [stripMargin, hdecomp]
    rw [if_pos (List.isPrefixOf_iff_prefix.mpr (List.prefix_append _ _))]
    exact List.drop_left _ _
  have hXne : (("                Break the topic \"" : String).data ++
      (t ++ ("\" into 4–6 subtopics with explanations." : String).data)).isEmpty = false := rfl
  have hBne : (("                # Topic Decomposition" : String).data).isEmpty = false := rfl
  simp only [dedentL]
  rw [hsplit]
  simp only [List.map]
  rw [hblankX,
    show blankWs ([] : List Char) = [] from rfl,
    show blankWs ("                # Topic Decomposition" : String).data =
      ("                # Topic Decomposition" : String).data from by decide,
    show blankWs ("                " : String).data = [] from by decide]
  rw [hindX,
    show lineIndent ("                # Topic Decomposition" : String).data =
      ("                " : String).data from by decide]
  rw [show marginOf [("                " : String).data, ("                " : String).data] =
      ("                " : String).data from by decide]
  rw [hstripX,
    show stripMargin ("                " : String).data ([] : List Char) = [] from by decide,
    show stripMargin ("                " : String).data
      ("                # Topic Decomposition" : String).data =
      ("# Topic Decomposition" : String).data from by decide]
  rw [show ∀ a b c : List Char, joinNl [[], a, [], b, c] =
      '\n' :: (a ++ '\n' :: '\n' :: (b ++ '\n' :: c)) from fun a b c => rfl]
  simp only [List.append_assoc]
  rw [show ("\" into 4–6 subtopics with explanations." : String).data ++
      '\n' :: '\n' :: (("# Topic Decomposition" : String).data ++ '\n' :: []) =
      ("\" into 4–6 subtopics with explanations.\n\n# Topic Decomposition\n" : String).data from by decide]

/-! ## Chain well-formedness -/

/-- A task list has no forward references: every task's context mentions
only tasks that occur strictly earlier in the list. -/
def chainNoForwardRefs (tasks : List Task) : Prop :=
  ∀ i : Fin tasks.length, ∀ t ∈ (tasks.get i).context, t ∈ tasks.take i.val

/-- The concrete five-task dependency shape of `build_crew` has no forward
references. -/
theorem chainNoForwardRefs_five (t1 t2 t3 t4 t5 : Task)
    (h1 : t1.context = []) (h2 : t2.context = [t1]) (h3 : t3.context = [t1, t2])
    (h4 : t4.context = [t3]) (h5 : t5.context = [t4, t3]) :
    chainNoForwardRefs [t1, t2, t3, t4, t5] := by
  intro i
  fin_cases i
  · intro t htm
    change t ∈ t1.context at htm
    rw [h1] at htm
    exact absurd htm (List.not_mem_nil t)
  · intro t htm
    change t ∈ t2.context at htm
    rw [h2] at htm
    exact htm
  · intro t htm
    change t ∈ t3.context at htm
    rw [h3] at htm
    exact htm
  · intro t htm
    change t ∈ t4.context at htm
    rw [h4] at htm
    simp only [List.mem_singleton] at htm
    subst htm
    simp
  · intro t htm
    change t ∈ t5.context at htm
    rw [h5] at htm
    simp only [List.mem_cons, List.not_mem_nil, or_false] at htm
    simp only [List.take, List.mem_cons, List.not_mem_nil, or_false]
    tauto

/-! ## Claims -/

/-- C1: for every topic and instructions, `build_crew` produces exactly the
five tasks decomposition, collection, report, outline, full_content in this
order, with contexts collection←[decomposition], report←[decomposition,
collection], outline←[report], full_content←[outline, report], and no
context refers to a task defined later in the chain. -/
theorem claim1_task_chain_structure (self : ResearchExplorerCrew)
    (topic instructions : String) :
    (self.build_crew topic instructions).tasks =
      [topic_task self topic, info_task self topic, report_task self topic,
        ppt_outline_task self topic, ppt_content_task self topic] ∧
    (self.build_crew topic instructions).tasks.length = 5 ∧
    (topic_task self topic).context = [] ∧
    (info_task self topic).context = [topic_task self topic] ∧
    (report_task self topic).context = [topic_task self topic, info_task self topic] ∧
    (ppt_outline_task self topic).context = [report_task self topic] ∧
    (ppt_content_task self topic).context = [ppt_outline_task self topic, report_task self topic] ∧
    chainNoForwardRefs (self.build_crew topic instructions).tasks :=
  ⟨rfl, rfl, rfl, rfl, rfl, rfl, rfl,
    chainNoForwardRefs_five _ _ _ _ _ rfl rfl rfl rfl rfl⟩

/-- C2: with the external engine replaced by a deterministic stub,
`run` returns exactly the stubbed final task's output as `full_markdown`,
and the result does not depend on the stubbed outputs of tasks 1–4 in any
form: two stubs that agree on the final task give identical results. -/
theorem claim2_run_returns_final_stub_output (self : ResearchExplorerCrew)
    (outputs : Task → String) (topic instructions : String) :
    self.run (stubKickoff outputs) topic instructions =
      { full_markdown := outputs (ppt_content_task self topic) } ∧
    ∀ outputs2 : Task → String,
      outputs2 (ppt_content_task self topic) = outputs (ppt_content_task self topic) →
        self.run (stubKickoff outputs2) topic instructions =
          self.run (stubKickoff outputs) topic instructions := by
  refine ⟨rfl, fun o2 h => ?_⟩
  show ReportResult.mk (o2 (ppt_content_task self topic)) =
    ReportResult.mk (outputs (ppt_content_task self topic))
  exact congrArg ReportResult.mk h

/-- C3: a POST whose topic form field is absent, empty or whitespace-only
takes the validation path (flash warning plus redirect) and performs zero
orchestrator invocations, whatever the external engine would do. -/
theorem claim3_blank_topic_validation_path (kickoff : Crew → String) (form : FormData)
    (h : pyStrip (form.topic.getD "") = "") :
    index kickoff .POST form =
      (Response.redirectIndex "Please enter a research topic." "danger", []) := by
  simp [index, h]

/-- Witness for C3 at a whitespace-only topic with an absent instructions
field. -/
theorem claim3_witness :
    index (fun _ => "ENGINE OUTPUT") .POST ⟨some "   ", none⟩ =
      (Response.redirectIndex "Please enter a research topic." "danger", []) :=
  claim3_blank_topic_validation_path (fun _ => "ENGINE OUTPUT") ⟨some "   ", none⟩ (by decide)

/-- C4: the task chain is independent of the instructions argument — two
builds differing only in instructions are identical — while line 110 still
computes the "No extra instructions." default for blank instructions. -/
theorem claim4_instructions_not_interpolated (self : ResearchExplorerCrew)
    (topic i1 i2 : String) :
    self.build_crew topic i1 = self.build_crew topic i2 ∧
    extra_note "" = "No extra instructions." ∧
    (pyStrip i1 = "" → extra_note i1 = "No extra instructions.") := by
  refine ⟨rfl, by decide, fun h => ?_⟩
  simp [extra_note, h]

/-- C5 counterexample: a submitted topic carrying surrounding whitespace is
rendered trimmed, not as the original submission, so the handler does not
render "the original topic" for every POST with a non-blank topic. -/
theorem claim5_counterexample :
    (index (fun _ => "ENGINE OUTPUT") .POST ⟨some " Edge Computing ", some "Focus on IoT"⟩).1 =
      Response.renderReport "Edge Computing" "Focus on IoT" ⟨"ENGINE OUTPUT"⟩ ∧
    ("Edge Computing" : String) ≠ " Edge Computing " :=
  ⟨by decide, by decide⟩

/-- C5 (amended): for every POST whose topic is non-empty after trimming,
the handler invokes the orchestrator exactly once and renders the result
page with the trimmed topic, the trimmed instructions, and the
orchestrator's returned markdown verbatim; these equal the submitted
strings whenever they carry no surrounding whitespace. -/
theorem claim5_renders_trimmed_values (kickoff : Crew → String) (form : FormData)
    (h : pyStrip (form.topic.getD "") ≠ "") :
    index kickoff .POST form =
      (Response.renderReport (pyStrip (form.topic.getD ""))
        (pyStrip (form.instructions.getD ""))
        (ResearchExplorerCrew.init.run kickoff (pyStrip (form.topic.getD ""))
          (pyStrip (form.instructions.getD ""))),
       [(pyStrip (form.topic.getD ""), pyStrip (form.instructions.getD ""))]) := by
  simp [index, h]

/-- Witness for C5 at the spec's end-to-end example: topic "Edge Computing",
instructions "Focus on IoT" (no surrounding whitespace, so the rendered
values equal the submitted strings exactly), one recorded invocation. -/
theorem claim5_witness :
    index (fun _ => "ENGINE OUTPUT") .POST ⟨some "Edge Computing", some "Focus on IoT"⟩ =
      (Response.renderReport "Edge Computing" "Focus on IoT"
        (ResearchExplorerCrew.init.run (fun _ => "ENGINE OUTPUT") "Edge Computing" "Focus on IoT"),
       [("Edge Computing", "Focus on IoT")]) := by
  have h := claim5_renders_trimmed_values (fun _ => "ENGINE OUTPUT")
    ⟨some "Edge Computing", some "Focus on IoT"⟩ (by decide)
  exact h.trans (by decide)

/-- C6 counterexample: for the multi-line topic "A\n B", `textwrap.dedent`
strips the second line's leading space into the common margin, so the first
task's description does not contain the topic verbatim. -/
theorem claim6_counterexample :
    ¬ ("A\n B" : String).data <:+:
        (topic_task ResearchExplorerCrew.init "A\n B").description.data := by decide

/-- C6 (amended): for every non-empty topic containing no newline character
(such as "Neural Networks"), the first task's description contains the
literal topic text verbatim, embedded raw with no escaping. -/
theorem claim6_topic_verbatim_in_first_description (self : ResearchExplorerCrew)
    (topic : String) (_hne : topic ≠ "") (ht : '\n' ∉ topic.data) :
    topic.data <:+: (topic_task self topic).description.data := by
  have hdata : (topic_task self topic).description.data =
      dedentL (("\n                Break the topic \"" ++ topic ++
        "\" into 4–6 subtopics with explanations.\n\n                # Topic Decomposition\n                " : String).data) := rfl
  have e : (("\n                Break the topic \"" ++ topic ++
      "\" into 4–6 subtopics with explanations.\n\n                # Topic Decomposition\n                " : String)).data =
      ("\n                Break the topic \"" : String).data ++
        (topic.data ++ ("\" into 4–6 subtopics with explanations.\n\n                # Topic Decomposition\n                " : String).data) := by
    rw [string_data_append, string_data_append, List.append_assoc]
  rw [hdata, e, dedentL_topic_template topic.data ht]
  rw [show '\n' :: (("Break the topic \"" : String).data ++
      (topic.data ++ ("\" into 4–6 subtopics with explanations.\n\n# Topic Decomposition\n" : String).data)) =
      ('\n' :: ("Break the topic \"" : String).data) ++ topic.data ++
        ("\" into 4–6 subtopics with explanations.\n\n# Topic Decomposition\n" : String).data from by
    simp [List.cons_append, List.append_assoc]]
  exact List.infix_append _ _ _

/-- Witness for C6 at the spec's example topic "Neural Networks". -/
theorem claim6_witness :
    ("Neural Networks" : String) ≠ "" ∧ '\n' ∉ ("Neural Networks" : String).data ∧
    ("Neural Networks" : String).data <:+:
      (topic_task ResearchExplorerCrew.init "Neural Networks").description.data :=
  ⟨by decide, by decide,
    claim6_topic_verbatim_in_first_description ResearchExplorerCrew.init "Neural Networks"
      (by decide) (by decide)⟩

/-- C7: two builds from identical arguments are structurally identical —
same descriptions, expected outputs, agent assignments and dependency
graph; chain construction has no hidden randomness. -/
theorem claim7_build_crew_deterministic (self : ResearchExplorerCrew)
    (topic instructions : String) (c1 c2 : Crew)
    (h1 : c1 = self.build_crew topic instructions)
    (h2 : c2 = self.build_crew topic instructions) :
    c1.tasks.map Task.description = c2.tasks.map Task.description ∧
    c1.tasks.map Task.expected_output = c2.tasks.map Task.expected_output ∧
    c1.tasks.map Task.agent = c2.tasks.map Task.agent ∧
    c1.tasks.map Task.context = c2.tasks.map Task.context ∧
    c1 = c2 := by
  subst h1
  subst h2
  exact ⟨rfl, rfl, rfl, rfl, rfl⟩

/-- Witness for C7 at a concrete build. -/
theorem claim7_witness :
    (ResearchExplorerCrew.init.build_crew "Edge Computing" "Focus on IoT").tasks.map Task.description =
      (ResearchExplorerCrew.init.build_crew "Edge Computing" "Focus on IoT").tasks.map Task.description ∧
    (ResearchExplorerCrew.init.build_crew "Edge Computing" "Focus on IoT").tasks.map Task.expected_output =
      (ResearchExplorerCrew.init.build_crew "Edge Computing" "Focus on IoT").tasks.map Task.expected_output ∧
    (ResearchExplorerCrew.init.build_crew "Edge Computing" "Focus on IoT").tasks.map Task.agent =
      (ResearchExplorerCrew.init.build_crew "Edge Computing" "Focus on IoT").tasks.map Task.agent ∧
    (ResearchExplorerCrew.init.build_crew "Edge Computing" "Focus on IoT").tasks.map Task.context =
      (ResearchExplorerCrew.init.build_crew "Edge Computing" "Focus on IoT").tasks.map Task.context ∧
    ResearchExplorerCrew.init.build_crew "Edge Computing" "Focus on IoT" =
      ResearchExplorerCrew.init.build_crew "Edge Computing" "Focus on IoT" :=
  claim7_build_crew_deterministic ResearchExplorerCrew.init "Edge Computing" "Focus on IoT"
    _ _ rfl rfl

/-- C8: chain construction is total — for every topic and instructions,
`build_crew` returns normally with the five-task chain (the embedding is a
total function; no error branch exists in the source). -/
theorem claim8_build_crew_total (self : ResearchExplorerCrew)
    (topic instructions : String) :
    (self.build_crew topic instructions).tasks.length = 5 := rfl

/-- C9: on every POST, the instructions form field is stripped of
surrounding whitespace before being passed to the orchestrator (every
logged invocation carries the trimmed value) and before being rendered
(any rendered result page carries the trimmed value). -/
theorem claim9_instructions_trimmed (kickoff : Crew → String) (form : FormData) :
    (∀ p ∈ (index kickoff .POST form).2, p.2 = pyStrip (form.instructions.getD "")) ∧
    ∀ t i r, (index kickoff .POST form).1 = Response.renderReport t i r →
      i = pyStrip (form.instructions.getD "") := by
  by_cases h : pyStrip (form.topic.getD "") = ""
  · refine ⟨fun p hp => ?_, fun t i r hr => ?_⟩
    · simp [index, h] at hp
    · simp [index, h] at hr
  · refine ⟨fun p hp => ?_, fun t i r hr => ?_⟩
    · simp only [index, if_neg h] at hp
      simp only [List.mem_singleton] at hp
      rw [hp]
    · simp only [index, if_neg h] at hr
      rw [Response.renderReport.injEq] at hr
      exact hr.2.1.symm

/-- C10: the topic is interpolated only into the descriptions of task 1
(decomposition) and task 3 (report); the descriptions of tasks 2, 4 and 5
are the fixed constant strings below, independent of both the topic and the
instructions. -/
theorem claim10_topic_only_in_first_and_third (self : ResearchExplorerCrew)
    (topic instructions : String) :
    (self.build_crew topic instructions).tasks.map Task.description =
      [dedent ("\n                Break the topic \"" ++ topic ++ "\" into 4–6 subtopics with explanations.\n\n                # Topic Decomposition\n                "),
        "\nUsing 'Topic Decomposition', provide definitions, methods, pros/cons.\n# Collected Information\n",
        dedent ("\n                Write a complete mini-report for the topic: \"" ++ topic ++ "\".\n                "),
        "\nConvert the full mini-report into a slide-wise outline \n(8–10 slides) with titles and bullet points.\n\nFormat:\n# Presentation Outline\n## Slide 1: ...\n- Bullet 1\n- Bullet 2\n",
        "\nUsing the 'Presentation Outline', expand each slide into complete content.\n\nFormat:\n# Full PPT Content\n\n## Slide 1: <Title>\n- Full sentences explaining the slide\n- Bullet points with meaningful descriptions\n- Notes for presenter (if needed)\n\n## Slide 2: <Title>\n- ...\n\nEnsure content is clear, student-friendly, and presentation-ready.\n"] := by
  have h2 : dedent "\n                Using 'Topic Decomposition', provide definitions, methods, pros/cons.\n                # Collected Information\n                " =
      "\nUsing 'Topic Decomposition', provide definitions, methods, pros/cons.\n# Collected Information\n" := by decide
  have h4 : dedent "\n                Convert the full mini-report into a slide-wise outline \n                (8–10 slides) with titles and bullet points.\n\n                Format:\n                # Presentation Outline\n                ## Slide 1: ...\n                - Bullet 1\n                - Bullet 2\n                " =
      "\nConvert the full mini-report into a slide-wise outline \n(8–10 slides) with titles and bullet points.\n\nFormat:\n# Presentation Outline\n## Slide 1: ...\n- Bullet 1\n- Bullet 2\n" := by decide
  have h5 : dedent "\n                Using the 'Presentation Outline', expand each slide into complete content.\n\n                Format:\n                # Full PPT Content\n\n                ## Slide 1: <Title>\n                - Full sentences explaining the slide\n                - Bullet points with meaningful descriptions\n                - Notes for presenter (if needed)\n\n                ## Slide 2: <Title>\n                - ...\n\n                Ensure content is clear, student-friendly, and presentation-ready.\n                " =
      "\nUsing the 'Presentation Outline', expand each slide into complete content.\n\nFormat:\n# Full PPT Content\n\n## Slide 1: <Title>\n- Full sentences explaining the slide\n- Bullet points with meaningful descriptions\n- Notes for presenter (if needed)\n\n## Slide 2: <Title>\n- ...\n\nEnsure content is clear, student-friendly, and presentation-ready.\n" := by decide
  simp only [ResearchExplorerCrew.build_crew, List.map, List.cons.injEq, and_true]
  exact ⟨rfl, h2, rfl, h4, h5⟩

end ResearchExplorer
